import Mathlib

/-
Verification of the page-tracker web application
(src/page-tracker/web/src/page_tracker/app.py): a Flask app with a single
view `index` on `GET /` that atomically increments the Redis key
"page_views" and reports the new value, plus a `@cache`-decorated accessor
`redis()` building the client from the REDIS_URL environment variable.

The handler is embedded parametrically in the store operation (exactly as
the repository's unit tests substitute a mock for `page_tracker.app.redis`),
so the same embedding is driven both by scripted stubs and by a model of
Redis INCR semantics.
-/

namespace PageTracker

/-- Values the Python expression `redis().incr("page_views")` may evaluate to
in the handler. The store client normally returns an integer, but the
repository's unit tests also drive the handler with `None` and with strings,
and the handler performs no type check of its own. -/
inductive PyVal where
  | intV (n : Int)
  | noneV
  | strV (s : String)
deriving DecidableEq

/-- Python `str()` of a `PyVal`, as applied by the f-string in `index`. -/
def pyStr : PyVal → String
  | .intV n => toString n
  | .noneV => "None"
  | .strV s => s

/-- Exceptions the store client can raise during the `incr` call.
`redisError kind msg` stands for `RedisError` and its subclasses
(`ConnectionError`, `TimeoutError`, `ResponseError`, `BusyLoadingError`, ...),
with `kind` naming the subclass; `otherExc kind msg` stands for any exception
not derived from `RedisError` (for example a plain `Exception` or
`ValueError`). -/
inductive StoreExc where
  | redisError (kind : String) (msg : String)
  | otherExc (kind : String) (msg : String)
deriving DecidableEq

/-- Whether the clause `except RedisError:` catches the exception. -/
def StoreExc.isRedisError : StoreExc → Bool
  | .redisError _ _ => true
  | .otherExc _ _ => false

/-- An HTTP response: status code and body text. -/
structure Response where
  status : Nat
  body : String
deriving DecidableEq

/-- The success message built in `index`: the f-string
`"🎉 This page has been viewed "` followed by `str(page_views)` and
`" times! "`, then `"Thanks for visiting!"` appended by `+=`. -/
def successBody (v : PyVal) : String :=
  "🎉 This page has been viewed " ++ pyStr v ++ " times! " ++ "Thanks for visiting!"

/-- The error body returned by `index` on the `except RedisError:` branch:
`"Sorry, something went wrong "` ending in the PENSIVE FACE character. -/
def apologyBody : String := "Sorry, something went wrong 😔"

/-- What one call of the view function `index` produces: either a response, or
an exception that is not caught by `except RedisError:` and therefore
propagates out of the view into Flask. -/
inductive Outcome where
  | response (r : Response)
  | unhandled (e : StoreExc)
deriving DecidableEq

/-- Embedding of the view function `index` (app.py lines 11-20): try the
increment; on a `RedisError` log and answer status 500 with the apology body;
otherwise format the returned value into the success message, which a bare
`return message` sends with Flask's default status 200. The store operation
`incrOp` (the Python `redis().incr`) acts on a store state `σ` and is a
parameter, exactly as the unit tests substitute a mock for
`page_tracker.app.redis`. -/
def index {σ : Type} (incrOp : String → σ → Except StoreExc PyVal × σ)
    (st : σ) : Outcome × σ :=
  match incrOp "page_views" st with
  | (Except.ok pageViews, st') =>
      (Outcome.response ⟨200, successBody pageViews⟩, st')
  | (Except.error e, st') =>
      if e.isRedisError then (Outcome.response ⟨500, apologyBody⟩, st')
      else (Outcome.unhandled e, st')

/-- An inbound HTTP request. The view consumes none of `query`, `headers`,
`body`; they are carried so that their irrelevance can be stated. -/
structure Request where
  method : String
  path : String
  query : String
  headers : List (String × String)
  body : String
deriving DecidableEq

/-- Werkzeug's default body for a 405 response. -/
def methodNotAllowedBody : String :=
  "<!doctype html>\n<html lang=en>\n<title>405 Method Not Allowed</title>\n<h1>Method Not Allowed</h1>\n<p>The method is not allowed for the requested URL.</p>\n"

/-- Werkzeug's default body for a 404 response. -/
def notFoundBody : String :=
  "<!doctype html>\n<html lang=en>\n<title>404 Not Found</title>\n<h1>Not Found</h1>\n<p>The requested URL was not found on the server. If you entered the URL manually please check your spelling and try again.</p>\n"

/-- Werkzeug's default body for a 500 response produced when an exception
escapes a view (the repository's unit test
`test_should_handle_redis_generic_exception` asserts this page appears). -/
def internalServerErrorBody : String :=
  "<!doctype html>\n<html lang=en>\n<title>500 Internal Server Error</title>\n<h1>Internal Server Error</h1>\n<p>The server encountered an internal error and was unable to complete your request. Either the server is overloaded or there is an error in the application.</p>\n"

/-- Embedding of Flask's dispatch for this app, whose only registered rule is
`@app.get("/")`. Flask's `app.get` registers method GET together with the
automatic HEAD and OPTIONS (the repository's unit tests
`test_flask_app_with_head_method` and `test_flask_app_with_options_method`
pin this down): GET and HEAD run the view (HEAD with the body stripped),
OPTIONS is answered by Flask without running the view, every other method on
the root path gets Werkzeug's default 405 response, and any other path gets
the default 404 response. An exception escaping the view yields Flask's
default 500 page. -/
def dispatch {σ : Type} (incrOp : String → σ → Except StoreExc PyVal × σ)
    (req : Request) (st : σ) : Response × σ :=
  if req.path = "/" then
    if req.method = "GET" then
      match index incrOp st with
      | (Outcome.response r, st') => (r, st')
      | (Outcome.unhandled _, st') => (⟨500, internalServerErrorBody⟩, st')
    else if req.method = "HEAD" then
      match index incrOp st with
      | (Outcome.response r, st') => (⟨r.status, ""⟩, st')
      | (Outcome.unhandled _, st') => (⟨500, ""⟩, st')
    else if req.method = "OPTIONS" then
      (⟨200, ""⟩, st)
    else
      (⟨405, methodNotAllowedBody⟩, st)
  else
    (⟨404, notFoundBody⟩, st)

instance {ε α : Type} [DecidableEq ε] [DecidableEq α] :
    DecidableEq (Except ε α) := fun x y =>
  match x, y with
  | .ok a, .ok b =>
      if h : a = b then isTrue (by rw [h])
      else isFalse (by intro hh; cases hh; exact h rfl)
  | .ok _, .error _ => isFalse (by intro hh; cases hh)
  | .error _, .ok _ => isFalse (by intro hh; cases hh)
  | .error e, .error f =>
      if h : e = f then isTrue (by rw [h])
      else isFalse (by intro hh; cases hh; exact h rfl)

/-- A scripted store double in the style of the repository's unit-test mocks:
`script` lists the outcome of each successive `incr` call (the mock's
`side_effect` list), and `calls` records the key of every `incr` invocation
(checked by the tests with `assert_called_once_with("page_views")`). An
exhausted script raises `StopIteration`, as `unittest.mock` does. -/
structure Stub where
  script : List (Except StoreExc PyVal)
  calls : List String
deriving DecidableEq

/-- One `incr key` call against the scripted store double. -/
def stubIncr (key : String) (st : Stub) : Except StoreExc PyVal × Stub :=
  match st.script with
  | [] => (Except.error (StoreExc.otherExc "StopIteration" ""),
           ⟨[], st.calls ++ [key]⟩)
  | r :: rest => (r, ⟨rest, st.calls ++ [key]⟩)

/-- State of the external Redis store: each key's integer value, `none` when
the key is absent. -/
def RedisMap : Type := String → Option Int

/-- Redis INCR semantics: an absent key is treated as 0, the value grows by
exactly 1, and the post-increment value is returned. -/
def realIncr (key : String) (s : RedisMap) : Except StoreExc PyVal × RedisMap :=
  let n := (s key).getD 0 + 1
  (Except.ok (PyVal.intV n), fun k => if k = key then some n else s k)

/-- A constructed store client: the URL it was built from and a construction
counter serving as its object identity. -/
structure RedisClient where
  url : String
  handle : Nat
deriving DecidableEq

/-- Process-wide state of the `@cache`-decorated accessor `redis()`. -/
structure CacheSt where
  cached : Option RedisClient
  constructions : Nat
deriving DecidableEq

/-- Fresh process: nothing cached, no construction has run. -/
def initCacheSt : CacheSt := ⟨none, 0⟩

/-- `os.getenv` with a default: `env` is the value of the environment
variable, `none` when unset. -/
def getenvOr (env : Option String) (dflt : String) : String := env.getD dflt

/-- Embedding of the accessor (app.py lines 23-25): `@cache` on a function
`redis()` returning `Redis.from_url(os.getenv("REDIS_URL",
"redis://localhost:6379"))`. On a cache hit the stored client is returned
untouched; on a miss the environment is read, the client is built from the
resolved URL, and the result is cached. -/
def redisAccessor (env : Option String) (st : CacheSt) : RedisClient × CacheSt :=
  match st.cached with
  | some c => (c, st)
  | none =>
      let c : RedisClient :=
        ⟨getenvOr env "redis://localhost:6379", st.constructions⟩
      (c, ⟨some c, st.constructions + 1⟩)

/-- Run the accessor once per entry of `envs`, threading the cache state;
each entry is the value of `REDIS_URL` observed if that call constructs. -/
def accessorRuns (envs : List (Option String)) (st : CacheSt) :
    List RedisClient × CacheSt :=
  match envs with
  | [] => ([], st)
  | e :: es =>
      let p := redisAccessor e st
      let q := accessorRuns es p.2
      (p.1 :: q.1, q.2)

/-- Does `pat` occur at the start of `s`? -/
def chkPre : List Char → List Char → Bool
  | [], _ => true
  | _ :: _, [] => false
  | a :: as, b :: bs => a = b && chkPre as bs

/-- Does `pat` occur anywhere inside `s`? -/
def hasSub (pat : List Char) : List Char → Bool
  | [] => pat.isEmpty
  | c :: cs => chkPre pat (c :: cs) || hasSub pat cs

/-- Substring test on strings. -/
def strContains (pat s : String) : Bool := hasSub pat.data s.data

/-- The canonical bare GET request for the root path. -/
def getRootReq : Request := ⟨"GET", "/", "", [], ""⟩

/-- A store holding no key at all. -/
def emptyStore : RedisMap := fun _ => none

/-- Issue `k` successive GET requests for the root path, threading store
state, and collect the responses in order. -/
def runGets {σ : Type} (incrOp : String → σ → Except StoreExc PyVal × σ)
    (k : Nat) (st : σ) : List Response × σ :=
  match k with
  | 0 => ([], st)
  | Nat.succ k' =>
      let p := dispatch incrOp getRootReq st
      let q := runGets incrOp k' p.2
      (p.1 :: q.1, q.2)

/-! ### Helper lemmas -/

theorem data_append (s t : String) : (s ++ t).data = s.data ++ t.data := rfl

theorem chkPre_self_append (p b : List Char) : chkPre p (p ++ b) = true := by
  induction p with
  | nil => rfl
  | cons a as ih => simp [chkPre, ih]

theorem hasSub_of_chkPre {p s : List Char} (h : chkPre p s = true) :
    hasSub p s = true := by
  cases s with
  | nil =>
      cases p with
      | nil => rfl
      | cons a as => simp [chkPre] at h
  | cons c cs => simp [hasSub, h]

theorem hasSub_append_left (p rest : List Char) (a : List Char)
    (h : hasSub p rest = true) : hasSub p (a ++ rest) = true := by
  induction a with
  | nil => simpa using h
  | cons x xs ih => simp [hasSub, ih]

theorem strContains_mid (p a b : String) :
    strContains p (a ++ (p ++ b)) = true := by
  have hdata : (a ++ (p ++ b)).data = a.data ++ (p.data ++ b.data) := rfl
  unfold strContains
  rw [hdata]
  exact hasSub_append_left _ _ _
    (hasSub_of_chkPre (chkPre_self_append p.data b.data))

theorem tail_data_eq :
    (" times! ".data ++ "Thanks for visiting!".data) =
      " times! Thanks for visiting!".data := by decide

theorem successBody_flat (v : PyVal) :
    successBody v =
      "🎉 This page has been viewed " ++ pyStr v ++
        " times! Thanks for visiting!" := by
  apply String.ext
  simp only [successBody, data_append, List.append_assoc, tail_data_eq]
  rfl

theorem successBody_regrouped (v : PyVal) :
    successBody v =
      "🎉 This page has been viewed " ++
        (pyStr v ++ " times! Thanks for visiting!") := by
  apply String.ext
  simp only [successBody, data_append, List.append_assoc, tail_data_eq]
  rfl

theorem apologyBody_eq :
    apologyBody = "Sorry, something went wrong " ++
      String.singleton (Char.ofNat 0x1F614) := by decide

/-! ### Claim theorems -/

/-- Claim C1: for every GET request to the root path in which the store's
increment call succeeds and returns integer n, the handler responds with
status 200 and a body that embeds the literal integer n returned by the store
(the body is the fixed template around the store's own value, so nothing is
locally recomputed or tracked). -/
theorem get_success_embeds_store_value (n : Int)
    (rest : List (Except StoreExc PyVal)) (calls0 : List String)
    (req : Request) (hm : req.method = "GET") (hp : req.path = "/") :
    (dispatch stubIncr req ⟨Except.ok (PyVal.intV n) :: rest, calls0⟩).1 =
      ⟨200, successBody (PyVal.intV n)⟩
    ∧ strContains (toString n) (successBody (PyVal.intV n)) = true := by
  constructor
  · simp [dispatch, hp, hm, index, stubIncr]
  · rw [successBody_regrouped]
    exact strContains_mid (toString n) _ " times! Thanks for visiting!"

theorem get_success_embeds_store_value_witness :
    (dispatch stubIncr ⟨"GET", "/", "q=1", [("X-Test", "y")], "ignored"⟩
        ⟨[Except.ok (PyVal.intV 5)], []⟩).1 = ⟨200, successBody (PyVal.intV 5)⟩
    ∧ strContains (toString (5 : Int)) (successBody (PyVal.intV 5)) = true :=
  get_success_embeds_store_value 5 [] []
    ⟨"GET", "/", "q=1", [("X-Test", "y")], "ignored"⟩ rfl rfl

/-- Claim C2 counterexample: a store-client exception that is not a RedisError
(a plain Exception, as in the repository's own unit test
`test_should_handle_redis_generic_exception`) escapes the handler's
`except RedisError:` clause; the status is 500 but the body is Flask's
default error page, not the fixed apology body. -/
theorem non_redis_exception_not_apology :
    ((dispatch stubIncr ⟨"GET", "/", "", [], ""⟩
        ⟨[Except.error (StoreExc.otherExc "Exception" "Unexpected error")],
         []⟩).1.status = 500)
    ∧ ((dispatch stubIncr ⟨"GET", "/", "", [], ""⟩
        ⟨[Except.error (StoreExc.otherExc "Exception" "Unexpected error")],
         []⟩).1.body ≠ apologyBody)
    ∧ strContains "Internal Server Error"
        ((dispatch stubIncr ⟨"GET", "/", "", [], ""⟩
          ⟨[Except.error (StoreExc.otherExc "Exception" "Unexpected error")],
           []⟩).1.body) = true := by decide

/-- Claim C2 amended: for every GET request to the root path in which the
store client raises a RedisError of any kind and any message during the
increment call, the handler responds with status 500 and the fixed apology
body, verbatim; an exception not derived from RedisError instead propagates
to the framework's default error handling. -/
theorem redis_error_gives_apology (kind msg : String)
    (rest : List (Except StoreExc PyVal)) (calls0 : List String)
    (req : Request) (hm : req.method = "GET") (hp : req.path = "/") :
    (dispatch stubIncr req
        ⟨Except.error (StoreExc.redisError kind msg) :: rest, calls0⟩).1 =
      ⟨500, apologyBody⟩ := by
  simp [dispatch, hp, hm, index, stubIncr, StoreExc.isRedisError]

theorem redis_error_gives_apology_witness :
    (dispatch stubIncr ⟨"GET", "/", "", [], ""⟩
        ⟨[Except.error (StoreExc.redisError "ConnectionError"
            "Error 111 connecting to localhost:6379. Connection refused.")],
         []⟩).1 = ⟨500, apologyBody⟩ :=
  redis_error_gives_apology "ConnectionError"
    "Error 111 connecting to localhost:6379. Connection refused." [] []
    ⟨"GET", "/", "", [], ""⟩ rfl rfl

/-- Claim C10: on every successful increment returning integer n the body is
exactly the fixed template with n substituted, and on the RedisError path the
body is exactly the string "Sorry, something went wrong " followed by the
PENSIVE FACE character U+1F614; both are fixed constants of the program. -/
theorem response_bodies_exact (n : Int) (kind msg : String)
    (rest1 rest2 : List (Except StoreExc PyVal)) (c1 c2 : List String) :
    (index stubIncr ⟨Except.ok (PyVal.intV n) :: rest1, c1⟩).1 =
      Outcome.response ⟨200,
        "🎉 This page has been viewed " ++ toString n ++
          " times! Thanks for visiting!"⟩
    ∧ (index stubIncr
        ⟨Except.error (StoreExc.redisError kind msg) :: rest2, c2⟩).1 =
      Outcome.response ⟨500,
        "Sorry, something went wrong " ++
          String.singleton (Char.ofNat 0x1F614)⟩ := by
  constructor
  · have h := successBody_flat (PyVal.intV n)
    simp only [pyStr] at h
    simp [index, stubIncr, h]
  · simp [index, stubIncr, StoreExc.isRedisError, apologyBody_eq]

/-- Claim C3 counterexample: a HEAD request to the root path is not answered
with 405. Flask's `app.get` also accepts the automatic HEAD method and runs
the view for it, so the store's increment IS invoked (the repository's test
`test_flask_app_with_head_method` likewise expects 200/500, not 405, for
HEAD). With a store returning 5 the status is 200 and the call log shows one
increment of "page_views". -/
theorem head_request_not_405 :
    ((dispatch stubIncr ⟨"HEAD", "/", "", [], ""⟩
        ⟨[Except.ok (PyVal.intV 5)], []⟩).1.status = 200)
    ∧ ((dispatch stubIncr ⟨"HEAD", "/", "", [], ""⟩
        ⟨[Except.ok (PyVal.intV 5)], []⟩).1.status ≠ 405)
    ∧ ((dispatch stubIncr ⟨"HEAD", "/", "", [], ""⟩
        ⟨[Except.ok (PyVal.intV 5)], []⟩).2.calls = ["page_views"]) := by
  decide

/-- Claim C3 amended: for every request to the root path whose method is none
of GET, HEAD and OPTIONS, the response is the default 405 Method Not Allowed
and the store operation is not invoked at all (the store state is returned
unchanged); of the two automatic extra methods, OPTIONS is answered without
invoking the store, while HEAD runs the handler and does invoke it. -/
theorem non_get_method_405_no_store_call {σ : Type}
    (incrOp : String → σ → Except StoreExc PyVal × σ) (req : Request)
    (st : σ) (hp : req.path = "/") (h1 : req.method ≠ "GET")
    (h2 : req.method ≠ "HEAD") (h3 : req.method ≠ "OPTIONS") :
    (dispatch incrOp req st).1 = ⟨405, methodNotAllowedBody⟩
    ∧ (dispatch incrOp req st).2 = st := by
  simp [dispatch, hp, h1, h2, h3]

theorem non_get_method_405_no_store_call_witness :
    (dispatch stubIncr ⟨"POST", "/", "", [], ""⟩
        (⟨[Except.ok (PyVal.intV 1)], []⟩ : Stub)).1 =
      ⟨405, methodNotAllowedBody⟩
    ∧ (dispatch stubIncr ⟨"POST", "/", "", [], ""⟩
        (⟨[Except.ok (PyVal.intV 1)], []⟩ : Stub)).2 =
      ⟨[Except.ok (PyVal.intV 1)], []⟩ :=
  non_get_method_405_no_store_call stubIncr ⟨"POST", "/", "", [], ""⟩
    ⟨[Except.ok (PyVal.intV 1)], []⟩ rfl (by decide) (by decide) (by decide)

/-- Claim C4, evaluated at the failing input: when the store's incr call
returns Python None without raising, the handler does not answer with the 500
apology required by the claim; it formats None into the success template and
answers 200, exactly as the repository's own unit test
`test_should_handle_redis_incr_returning_none` asserts. -/
theorem nonint_return_formatted_not_500 :
    (dispatch stubIncr ⟨"GET", "/", "", [], ""⟩
        ⟨[Except.ok PyVal.noneV], []⟩).1 =
      ⟨200, "🎉 This page has been viewed None times! Thanks for visiting!"⟩
    ∧ (dispatch stubIncr ⟨"GET", "/", "", [], ""⟩
        ⟨[Except.ok PyVal.noneV], []⟩).1.status ≠ 500 := by
  decide

theorem stubIncr_calls (key : String) (st : Stub) :
    ((stubIncr key st).2).calls = st.calls ++ [key] := by
  rcases st with ⟨script, calls⟩
  cases script <;> simp [stubIncr]

theorem index_stub_calls (st : Stub) :
    ((index stubIncr st).2).calls = st.calls ++ ["page_views"] := by
  rcases st with ⟨script, calls⟩
  cases script with
  | nil => simp [index, stubIncr, StoreExc.isRedisError]
  | cons r rest =>
      cases r with
      | ok v => simp [index, stubIncr]
      | error e => cases e <;> simp [index, stubIncr, StoreExc.isRedisError]

theorem dispatch_get_state {σ : Type}
    (incrOp : String → σ → Except StoreExc PyVal × σ) (req : Request)
    (st : σ) (hm : req.method = "GET") (hp : req.path = "/") :
    (dispatch incrOp req st).2 = (index incrOp st).2 := by
  rcases h : index incrOp st with ⟨o, st'⟩
  cases o <;> simp [dispatch, hp, hm, h]

/-- Claim C5: every GET request to the root path invokes the store's incr
exactly once, with the fixed key "page_views" (whatever the scripted store
outcome is, the call log afterwards is exactly that one key); and a scripted
store returning 1,2,3,4,5 in order yields five responses each embedding its
own returned value. -/
theorem incr_called_once_per_get (script : List (Except StoreExc PyVal))
    (req : Request) (hm : req.method = "GET") (hp : req.path = "/") :
    ((dispatch stubIncr req ⟨script, []⟩).2).calls = ["page_views"]
    ∧ (runGets stubIncr 5
        ⟨[Except.ok (PyVal.intV 1), Except.ok (PyVal.intV 2),
          Except.ok (PyVal.intV 3), Except.ok (PyVal.intV 4),
          Except.ok (PyVal.intV 5)], []⟩).1 =
      [⟨200, successBody (PyVal.intV 1)⟩, ⟨200, successBody (PyVal.intV 2)⟩,
       ⟨200, successBody (PyVal.intV 3)⟩, ⟨200, successBody (PyVal.intV 4)⟩,
       ⟨200, successBody (PyVal.intV 5)⟩] := by
  constructor
  · rw [dispatch_get_state stubIncr req ⟨script, []⟩ hm hp,
      index_stub_calls ⟨script, []⟩]
    rfl
  · rfl

theorem incr_called_once_per_get_witness :
    ((dispatch stubIncr ⟨"GET", "/", "", [], ""⟩
        (⟨[Except.ok (PyVal.intV 7)], []⟩ : Stub)).2).calls = ["page_views"]
    ∧ (runGets stubIncr 5
        ⟨[Except.ok (PyVal.intV 1), Except.ok (PyVal.intV 2),
          Except.ok (PyVal.intV 3), Except.ok (PyVal.intV 4),
          Except.ok (PyVal.intV 5)], []⟩).1 =
      [⟨200, successBody (PyVal.intV 1)⟩, ⟨200, successBody (PyVal.intV 2)⟩,
       ⟨200, successBody (PyVal.intV 3)⟩, ⟨200, successBody (PyVal.intV 4)⟩,
       ⟨200, successBody (PyVal.intV 5)⟩] :=
  incr_called_once_per_get [Except.ok (PyVal.intV 7)]
    ⟨"GET", "/", "", [], ""⟩ rfl rfl

theorem accessorRuns_hit (es : List (Option String)) (c : RedisClient)
    (k : Nat) :
    accessorRuns es ⟨some c, k⟩ =
      (List.replicate es.length c, ⟨some c, k⟩) := by
  induction es with
  | nil => rfl
  | cons e es ih => simp [accessorRuns, redisAccessor, ih, List.replicate]

theorem accessorRuns_init (e : Option String) (es : List (Option String)) :
    accessorRuns (e :: es) initCacheSt =
      (List.replicate (es.length + 1)
        (RedisClient.mk (getenvOr e "redis://localhost:6379") 0),
       ⟨some (RedisClient.mk (getenvOr e "redis://localhost:6379") 0), 1⟩) := by
  simp [accessorRuns, redisAccessor, initCacheSt, accessorRuns_hit,
    List.replicate]

/-- Claim C6: client construction is idempotent and cached. Starting from a
fresh process, any sequence of accessor calls returns the very same client
handle every time (the one built on the first call, with construction counter
0), and the underlying construction has run exactly once, so at most once. -/
theorem redis_accessor_cached (e : Option String)
    (es : List (Option String)) :
    (accessorRuns (e :: es) initCacheSt).1 =
      List.replicate (es.length + 1)
        (RedisClient.mk (getenvOr e "redis://localhost:6379") 0)
    ∧ ((accessorRuns (e :: es) initCacheSt).2).constructions = 1 := by
  rw [accessorRuns_init]
  exact ⟨rfl, rfl⟩

/-- Claim C7: the connection target is resolved from the REDIS_URL setting
exactly once, at construction time. Every call's client still carries the URL
resolved from the environment seen by the first (constructing) call, whatever
values `es` the environment takes at later calls - so resolution is not
per increment call - and a construction with the setting absent resolves to
the documented default redis://localhost:6379. -/
theorem redis_url_resolved_once (e : Option String)
    (es : List (Option String)) :
    (accessorRuns (e :: es) initCacheSt).1.map RedisClient.url =
      List.replicate (es.length + 1) (getenvOr e "redis://localhost:6379")
    ∧ ((redisAccessor none initCacheSt).1).url = "redis://localhost:6379" := by
  rw [accessorRuns_init]
  exact ⟨by simp [List.map_replicate], rfl⟩

/-- Claim C8: for any two GET requests to the root path - whatever their
query strings, headers and bodies - run against the same store operation in
the same store state (hence the same increment outcome), the responses and
resulting store states are identical; request parameters never influence the
result. -/
theorem request_params_never_influence {σ : Type}
    (incrOp : String → σ → Except StoreExc PyVal × σ) (st : σ)
    (r1 r2 : Request) (h1 : r1.method = "GET") (h2 : r1.path = "/")
    (h3 : r2.method = "GET") (h4 : r2.path = "/") :
    dispatch incrOp r1 st = dispatch incrOp r2 st := by
  simp [dispatch, h1, h2, h3, h4]

theorem request_params_never_influence_witness :
    dispatch stubIncr
        ⟨"GET", "/", "a=1&b=2", [("User-Agent", "TestAgent"), ("Cookie", "s=1")],
          "some body"⟩
        (⟨[Except.ok (PyVal.intV 3)], []⟩ : Stub) =
      dispatch stubIncr ⟨"GET", "/", "", [], ""⟩
        (⟨[Except.ok (PyVal.intV 3)], []⟩ : Stub) :=
  request_params_never_influence stubIncr ⟨[Except.ok (PyVal.intV 3)], []⟩
    ⟨"GET", "/", "a=1&b=2", [("User-Agent", "TestAgent"), ("Cookie", "s=1")],
      "some body"⟩
    ⟨"GET", "/", "", [], ""⟩ rfl rfl rfl rfl

/-- Claim C9: under Redis INCR semantics (absent key read as 0, increment
adds exactly 1), a first GET on the empty store answers 200 with a body
containing "1" and leaves the store holding 1; the second GET's body contains
"2" and the store then holds 2; and a GET with the counter pre-set to 999999
answers with a body containing "1000000". -/
theorem incr_end_to_end_scenarios :
    ((dispatch realIncr getRootReq emptyStore).1.status = 200
      ∧ strContains "1" ((dispatch realIncr getRootReq emptyStore).1.body) =
          true
      ∧ (dispatch realIncr getRootReq emptyStore).2 "page_views" = some 1)
    ∧ (strContains "2"
          ((dispatch realIncr getRootReq
            ((dispatch realIncr getRootReq emptyStore).2)).1.body) = true
      ∧ (dispatch realIncr getRootReq
          ((dispatch realIncr getRootReq emptyStore).2)).2 "page_views" =
          some 2)
    ∧ strContains "1000000"
        ((dispatch realIncr getRootReq
          (fun k => if k = "page_views" then some 999999 else none)).1.body) =
        true := by
  decide

end PageTracker
